import Mathlib

/-!
Shallow embedding of the external-process supervisor of the ewp-gui
repository (src/ewp-gui/src/CoreProcess.cpp, CoreProcess.h, EWPNode.h).

The supervisor is an event-driven Qt object; all its slots run on one
serialized timeline.  We embed it as a pure state machine: the mutable
member variables of `CoreProcess` become fields of `CoreState`, every
slot or public method becomes a pure function from state (plus an
environment record standing for the outcomes the OS decides: whether
the executable exists, whether the spawn confirmation and the various
`waitForFinished` calls succeed, the exit status the process reports)
to a new state together with the list of Qt signals emitted, in
emission order.  Qt semantics used by the embedding: signal/slot
connections on one thread are direct, so signals emitted inside
`waitForStarted` / `waitForFinished` run their slots before the wait
returns; deleting a running `QProcess` kills the process without
emitting `finished`; a stopped `QTimer` does not deliver its timeout.
-/

namespace CoreSup

/-- Application-layer protocol of a node (EWPNode.h: `enum AppProtocol`). -/
inductive AppProtocol
  | ewp
  | trojan
  deriving DecidableEq

/-- Transport protocol of a node (EWPNode.h: `enum TransportMode`). -/
inductive TransportMode
  | ws
  | grpc
  | xhttp
  | h3grpc

/-- Node configuration structure (EWPNode.h: `struct EWPNode`), with the
fields the supervisor and its validity check consult.  Defaults follow the
member initializers of the C++ struct. -/
structure EWPNode where
  id : Int := -1
  name : String := ""
  serverAddress : String := ""
  serverPort : Int := 443
  uuid : String := ""
  serverIP : String := ""
  appProtocol : AppProtocol := AppProtocol.ewp
  trojanPassword : String := ""
  transportMode : TransportMode := TransportMode.ws
  wsPath : String := "/"
  grpcServiceName : String := "api"
  enableECH : Bool := true

instance : Inhabited EWPNode := ⟨{}⟩

/-- EWPNode.h, `EWPNode::isValid`: the server address must be non-empty and
the credential of the selected protocol (trojan password for TROJAN, uuid
otherwise) must be non-empty. -/
def EWPNode.isValid (n : EWPNode) : Bool :=
  if n.serverAddress.isEmpty then false
  else if n.appProtocol = AppProtocol.trojan then !n.trojanPassword.isEmpty
  else !n.uuid.isEmpty

/-- Exit status reported by the OS for a finished process
(QProcess::ExitStatus). -/
inductive ExitStatus
  | normalExit
  | crashExit
  deriving DecidableEq

/-- Process-level error reported asynchronously (QProcess::ProcessError
values that `CoreProcess::onProcessError` distinguishes). -/
inductive ProcessError
  | failedToStart
  | crashed
  | timedout
  | otherError
  deriving DecidableEq

/-- Qt signals emitted by `CoreProcess` (CoreProcess.h, `signals:`). -/
inductive Notif
  | started
  | stopped
  | errorOccurred (msg : String)
  | logReceived (msg : String)
  | reconnecting (attempt maxAttempts : Nat)
  | reconnectFailed
  deriving DecidableEq

/-- CoreProcess.h: `static constexpr int kMaxRetries = 3`. -/
def kMaxRetries : Nat := 3

/-- The resolved core executable path (`findCoreExecutable`); the search
order is irrelevant to the supervisor semantics, only the resulting name
appears in the not-found error message. -/
def kCoreExecutable : String := "ewp-core"

/-- The per-process config file path produced by `generateConfigFile`
(temp dir plus an application-pid-keyed name); one fixed path per
supervisor lifetime. -/
def kConfigPath : String := "/tmp/ewp-gui-config-1000.json"

/-- Error message strings set by `CoreProcess` (CoreProcess.cpp). -/
def msgAlreadyRunning : String := "进程已在运行"

/-- Error message of the executable-not-found branch (CoreProcess.cpp:77). -/
def msgExeNotFound : String := "找不到核心文件: " ++ kCoreExecutable

/-- Error message of the invalid-node branch (CoreProcess.cpp:83). -/
def msgInvalidNode : String := "节点配置无效"

/-- Error message of the config-generation failure branch (CoreProcess.cpp:93). -/
def msgConfigFail : String := "生成配置文件失败"

/-- Error message of the waitForStarted timeout branch (CoreProcess.cpp:117). -/
def msgStartTimeout : String := "启动超时"

/-- Log message emitted by `scheduleReconnect` (CoreProcess.cpp:239-240),
with the QString `%1/%2/%3` placeholders substituted. -/
def reconnectLogMsg (delaySec attempt : Nat) : String :=
  "⚠️ 核心进程崩溃，" ++ toString delaySec ++ " 秒后尝试第 " ++
    toString attempt ++ "/" ++ toString kMaxRetries ++ " 次重连..."

/-- Log message emitted by `attemptReconnect` (CoreProcess.cpp:247). -/
def tryReconnectLogMsg (attempt : Nat) : String :=
  "🔄 正在尝试重连 (" ++ toString attempt ++ "/" ++ toString kMaxRetries ++ ")..."

/-- QChar::isSpace restricted to the ASCII whitespace the supervisor's
streams can contain. -/
def isQSpace (c : Char) : Bool :=
  c = ' ' || c = '\t' || c = '\n' || c = '\r'

/-- QString::trimmed: remove leading and trailing whitespace. -/
def qtrim (s : String) : String :=
  ⟨((s.data.dropWhile isQSpace).reverse.dropWhile isQSpace).reverse⟩

/-- QString::startsWith. -/
def qStartsWith (s pre : String) : Bool :=
  pre.data.isPrefixOf s.data

/-- QString::mid(n): the suffix after the first `n` characters. -/
def qmid (s : String) (n : Nat) : String := ⟨s.data.drop n⟩

/-- Worker for QString::split on a single separator character. -/
def qsplitAux (sep : Char) : List Char → List Char → List String
  | [], acc => [⟨acc.reverse⟩]
  | c :: cs, acc =>
    if c = sep then ⟨acc.reverse⟩ :: qsplitAux sep cs []
    else qsplitAux sep cs (c :: acc)

/-- QString::split(sep) with the default KeepEmptyParts behavior. -/
def qsplit (s : String) (sep : Char) : List String :=
  qsplitAux sep s.data []

/-- Error message chosen by `onProcessError` (CoreProcess.cpp:263-276). -/
def procErrorMsg : ProcessError → String
  | ProcessError.failedToStart => "进程启动失败"
  | ProcessError.crashed => "进程崩溃"
  | ProcessError.timedout => "进程超时"
  | ProcessError.otherError => "未知错误"

/-- The mutable members of `CoreProcess` (CoreProcess.h:51-62) plus the two
pieces of external state the supervisor owns: whether the spawned process
object exists and is running, and whether the generated config file is on
disk. -/
structure CoreState where
  /-- Field for `process != nullptr`. -/
  hasProcess : Bool := false
  /-- Field for `process && process->state() == QProcess::Running` (`isRunning`). -/
  procRunning : Bool := false
  /-- Field for `retryTimer->isActive()`. -/
  timerActive : Bool := false
  /-- interval the pending single-shot timer was started with, in ms -/
  timerDelayMs : Nat := 0
  /-- member `listenAddr` -/
  listenAddr : String := "127.0.0.1:1080"
  /-- member `controlAddr` -/
  controlAddr : String := ""
  /-- member `lastError` -/
  lastError : String := ""
  /-- member `configFilePath` -/
  configFilePath : String := ""
  /-- whether the file at `kConfigPath` currently exists on disk -/
  configOnDisk : Bool := false
  /-- member `gracefulStop` -/
  gracefulStop : Bool := false
  /-- member `retryCount` -/
  retryCount : Nat := 0
  /-- member `lastNode` -/
  lastNode : EWPNode := {}
  /-- member `lastTunMode` -/
  lastTunMode : Bool := false

/-- The freshly constructed supervisor (CoreProcess constructor). -/
def initState : CoreState := {}

/-- Outcomes the environment decides during a start attempt:
`QFile::exists(coreExecutable)`, the registry-loaded listen address,
whether `ConfigGenerator::saveConfig` succeeds, and whether
`process->waitForStarted(5000)` succeeds. -/
structure StartEnv where
  exeExists : Bool
  settingsListenAddr : String := "127.0.0.1:1080"
  configGenOk : Bool
  spawnOk : Bool

/-- Outcomes the environment decides during `stop()`: whether each of the
three bounded waits (`waitForFinished(500)` after the quit request,
`waitForFinished(300)` after `terminate()`, `waitForFinished(200)` after
`kill()`) observes the process exit, and the exit code / status the
`finished` signal then reports. -/
structure StopEnv where
  quitWaitOk : Bool
  termWaitOk : Bool
  killWaitOk : Bool
  exitCode : Int
  exitStatus : ExitStatus

/-- CoreProcess.cpp:189-205, `generateConfigFile`: loads settings (the
listen address), builds the config document, and writes it to the
pid-keyed temp path; returns the path, or the empty string when saving
fails. -/
def generateConfigFile (env : StartEnv) (s : CoreState) : String × CoreState :=
  let s1 := { s with listenAddr := env.settingsListenAddr }
  if env.configGenOk then (kConfigPath, { s1 with configOnDisk := true })
  else ("", s1)

/-- CoreProcess.cpp:227-243, `scheduleReconnect`: when the retry budget is
exhausted, emit `reconnectFailed` and reset the counter; otherwise compute
the delay `2 << retryCount` seconds, advance the counter, emit
`reconnecting(retryCount, kMaxRetries)` and a log line, and start the
single-shot retry timer. -/
def scheduleReconnect (s : CoreState) : CoreState × List Notif :=
  if s.retryCount ≥ kMaxRetries then
    ({ s with retryCount := 0 }, [Notif.reconnectFailed])
  else
    let delaySec : Nat := 2 <<< s.retryCount
    let s1 := { s with retryCount := s.retryCount + 1 }
    ({ s1 with timerActive := true, timerDelayMs := delaySec * 1000 },
     [Notif.reconnecting s1.retryCount kMaxRetries,
      Notif.logReceived (reconnectLogMsg delaySec s1.retryCount)])

/-- CoreProcess.cpp:207-210, `onProcessStarted`: emits `started` and
nothing else; in particular it does not touch `retryCount`. -/
def onProcessStarted (s : CoreState) : CoreState × List Notif :=
  (s, [Notif.started])

/-- CoreProcess.cpp:212-225, `onProcessFinished`: the exit code is unused
(`Q_UNUSED(exitCode)`); the exit is classified as a crash iff the status
is `CrashExit` and `gracefulStop` is not set.  Clears `gracefulStop` and
`controlAddr`, emits `stopped`, and on a crash calls `scheduleReconnect`.
The process has exited, so `isRunning` is false afterwards. -/
def onProcessFinished (exitCode : Int) (st : ExitStatus) (s : CoreState) :
    CoreState × List Notif :=
  let crashed := st = ExitStatus.crashExit ∧ s.gracefulStop = false
  let s1 := { s with gracefulStop := false, controlAddr := "", procRunning := false }
  if crashed then
    let r := scheduleReconnect s1
    (r.1, Notif.stopped :: r.2)
  else
    (s1, [Notif.stopped])

/-- CoreProcess.cpp:69-125, `startCore`: reject when already running
(setting `lastError` only, emitting nothing); then check the executable,
validate the node, record `lastNode`/`lastTunMode`, materialize the config
file, spawn the process and wait up to 5 s for the spawn confirmation.
Each failure sets `lastError`, emits `errorOccurred`, and returns false;
on the spawn-timeout failure the process object is deleted.  On success
`waitForStarted` has delivered `started` via `onProcessStarted`. -/
def startCore (env : StartEnv) (node : EWPNode) (tunMode : Bool) (s : CoreState) :
    Bool × CoreState × List Notif :=
  if s.procRunning then
    (false, { s with lastError := msgAlreadyRunning }, [])
  else if !env.exeExists then
    (false, { s with lastError := msgExeNotFound },
     [Notif.errorOccurred msgExeNotFound])
  else if !node.isValid then
    (false, { s with lastError := msgInvalidNode },
     [Notif.errorOccurred msgInvalidNode])
  else
    let s1 := { s with lastNode := node, lastTunMode := tunMode }
    let g := generateConfigFile env s1
    let s2 := { g.2 with configFilePath := g.1 }
    if s2.configFilePath.isEmpty then
      (false, { s2 with lastError := msgConfigFail },
       [Notif.errorOccurred msgConfigFail])
    else
      let s3 := { s2 with hasProcess := true }
      if !env.spawnOk then
        (false, { s3 with lastError := msgStartTimeout, hasProcess := false },
         [Notif.errorOccurred msgStartTimeout])
      else
        let r := onProcessStarted { s3 with procRunning := true }
        (true, r.1, r.2)

/-- CoreProcess.cpp:62-67, `start`: resets the retry counter, cancels any
pending retry timer, and delegates to `startCore`. -/
def start (env : StartEnv) (node : EWPNode) (tunMode : Bool) (s : CoreState) :
    Bool × CoreState × List Notif :=
  startCore env node tunMode { s with retryCount := 0, timerActive := false }

/-- Deletes the generated config file if the recorded path is non-empty and
the file exists (CoreProcess.cpp:147-149 and 166-168). -/
def removeConfigFile (s : CoreState) : CoreState :=
  if !s.configFilePath.isEmpty ∧ s.configOnDisk then { s with configOnDisk := false }
  else s

/-- CoreProcess.cpp:127-169, `stop`: no-op when neither a process is
running nor the retry timer pending; otherwise reset the retry counter and
cancel the timer, and return if no process is running.  With a live
process, set `gracefulStop`; if a control address is known, send the
best-effort quit request and wait 500 ms — if the process exits (the
`finished` signal runs `onProcessFinished` inside the wait), delete the
process object and the config file and return.  Otherwise escalate:
`terminate()` with a 300 ms wait, then `kill()` with a 200 ms wait; in
either confirmed case `onProcessFinished` has run inside the wait.  If
even the kill wait times out, deleting the running process object kills it
without a `finished` signal.  The config file is deleted on every path
that reaches the escalation block.  `finishAndCleanup` is the cleanup
block the C++ repeats after each confirmed exit: the `finished` signal
has run inside the wait, then the process object is deleted and the
config file removed (CoreProcess.cpp:142-152 and 156-168). -/
def finishAndCleanup (env : StopEnv) (sB : CoreState) : CoreState × List Notif :=
  let r := onProcessFinished env.exitCode env.exitStatus sB
  (removeConfigFile { r.1 with hasProcess := false }, r.2)

/-- CoreProcess.cpp:127-169 continued, the `stop` control flow itself. -/
def stop (env : StopEnv) (s : CoreState) : CoreState × List Notif :=
  if !s.procRunning ∧ !s.timerActive then (s, [])
  else
    let sA := { s with retryCount := 0, timerActive := false }
    if !sA.procRunning then (sA, [])
    else
      let sB := { sA with gracefulStop := true }
      if !sB.controlAddr.isEmpty ∧ env.quitWaitOk then finishAndCleanup env sB
      else if env.termWaitOk then finishAndCleanup env sB
      else if env.killWaitOk then finishAndCleanup env sB
      else
        (removeConfigFile { sB with hasProcess := false, procRunning := false }, [])

/-- CoreProcess.cpp:245-252, `attemptReconnect` (the retry timer's slot):
log the attempt, re-run `startCore` with the stored node and tun mode, and
on failure schedule the next reconnect. -/
def attemptReconnect (env : StartEnv) (s : CoreState) : CoreState × List Notif :=
  let n0 := Notif.logReceived (tryReconnectLogMsg s.retryCount)
  let r := startCore env s.lastNode s.lastTunMode s
  if r.1 then
    (r.2.1, n0 :: r.2.2)
  else
    let r2 := scheduleReconnect r.2.1
    (r2.1, n0 :: (r.2.2 ++ r2.2))

/-- Delivery of the single-shot retry timer: the timeout slot
(`attemptReconnect`) runs only if the timer is still active (QTimer::stop
removes a pending timeout); firing deactivates the single-shot timer. -/
def fireTimer (env : StartEnv) (s : CoreState) : CoreState × List Notif :=
  if s.timerActive then attemptReconnect env { s with timerActive := false }
  else (s, [])

/-- CoreProcess.cpp:254-279, `onProcessError`: a `Crashed` error during a
caller-requested stop is ignored (the Windows terminate-reports-crash
workaround); every other error emits `errorOccurred` with the
corresponding message. -/
def onProcessError (e : ProcessError) (s : CoreState) : CoreState × List Notif :=
  if s.gracefulStop ∧ e = ProcessError.crashed then (s, [])
  else (s, [Notif.errorOccurred (procErrorMsg e)])

/-- CoreProcess.cpp:289-296, the per-line body of the stdout loop: trim
the line; if it starts with the literal marker, store the rest as the
control address; then emit the trimmed line as a log line. -/
def handleOutLine (s : CoreState) (line : String) : CoreState × List Notif :=
  let t := qtrim line
  let s1 :=
    if qStartsWith t "CONTROL_ADDR=" then { s with controlAddr := qmid t 13 }
    else s
  (s1, [Notif.logReceived t])

/-- CoreProcess.cpp:281-298, `onReadyReadStandardOutput`: ignore output
when the process object is gone; trim the whole chunk, and unless it is
empty, split on newlines and run the per-line handler on each line in
order. -/
def onReadyReadStandardOutput (data : String) (s : CoreState) :
    CoreState × List Notif :=
  if !s.hasProcess then (s, [])
  else
    let text := qtrim data
    if text.isEmpty then (s, [])
    else
      (qsplit text (Char.ofNat 10)).foldl
        (fun acc line =>
          let r := handleOutLine acc.1 line
          (r.1, acc.2 ++ r.2))
        (s, [])

/-- CoreProcess.cpp:300-312, `onReadyReadStandardError`: same chunk
handling, but every line is forwarded with an `[ERR] ` origin tag and no
control-address extraction. -/
def onReadyReadStandardError (data : String) (s : CoreState) :
    CoreState × List Notif :=
  if !s.hasProcess then (s, [])
  else
    let text := qtrim data
    if text.isEmpty then (s, [])
    else
      (s, (qsplit text (Char.ofNat 10)).map
        (fun line => Notif.logReceived ("[ERR] " ++ qtrim line)))

/-! Concrete fixtures: an environment in which every OS interaction
succeeds, a valid node, and the states reached by a successful start and
by the first crash (which leaves the retry timer pending). -/

/-- Environment where the executable exists, config generation succeeds and
the spawn is confirmed. -/
def goodEnv : StartEnv := { exeExists := true, configGenOk := true, spawnOk := true }

/-- Environment identical to `goodEnv` except the spawn confirmation times
out (`waitForStarted(5000)` fails). -/
def noSpawnEnv : StartEnv := { exeExists := true, configGenOk := true, spawnOk := false }

/-- A valid EWP node: non-empty server address and uuid. -/
def node0 : EWPNode := { serverAddress := "example.com", uuid := "u" }

/-- Stop environment in which every bounded wait observes the exit. -/
def stopEnvOk : StopEnv :=
  { quitWaitOk := true, termWaitOk := true, killWaitOk := true,
    exitCode := 0, exitStatus := ExitStatus.normalExit }

/-- State after a successful external `start` from the fresh supervisor:
process running, config file on disk, retry counter 0. -/
def runS : CoreState := (start goodEnv node0 false initState).2.1

/-- State after the running process crashes (CrashExit, no stop
requested): the first reconnect is scheduled, the retry timer is pending
with `retryCount = 1`, and the config file is still on disk. -/
def reconS : CoreState := (onProcessFinished 9 ExitStatus.crashExit runS).1

/-! Helper lemmas about `startCore`. -/

/-- The generated config path is a non-empty string. -/
theorem kConfigPath_isEmpty : kConfigPath.isEmpty = false := by decide

/-- The empty string is empty (evaluation fact used to reduce branches). -/
theorem emptyStr_isEmpty : "".isEmpty = true := by decide

/-- Helper: a predicate holds of an if-then-else when it holds of both
branches. -/
theorem ite_pred {α : Sort u} {c : Prop} [Decidable c] (P : α → Prop) {a b : α}
    (ha : P a) (hb : P b) : P (if c then a else b) := by
  by_cases h : c
  · rw [if_pos h]; exact ha
  · rw [if_neg h]; exact hb

/-- Helper: a predicate holds of an if-then-else with a false condition
when it holds of the else branch. -/
theorem ite_cond_neg {α : Sort u} {c : Prop} [Decidable c] (P : α → Prop) {a b : α}
    (hc : ¬c) (hb : P b) : P (if c then a else b) := by
  rw [if_neg hc]
  exact hb

/-- Helper: `startCore` never modifies the retry counter on any of its paths. -/
theorem startCore_retryCount (env : StartEnv) (node : EWPNode) (t : Bool)
    (s : CoreState) : (startCore env node t s).2.1.retryCount = s.retryCount := by
  unfold startCore generateConfigFile onProcessStarted
  cases hp : s.procRunning <;> cases he : env.exeExists <;> cases hv : node.isValid <;>
    cases hc : env.configGenOk <;> cases hs : env.spawnOk <;> rfl

/-- Helper: `startCore` never modifies the timer-active flag on any of its paths. -/
theorem startCore_timerActive (env : StartEnv) (node : EWPNode) (t : Bool)
    (s : CoreState) : (startCore env node t s).2.1.timerActive = s.timerActive := by
  unfold startCore generateConfigFile onProcessStarted
  cases hp : s.procRunning <;> cases he : env.exeExists <;> cases hv : node.isValid <;>
    cases hc : env.configGenOk <;> cases hs : env.spawnOk <;> rfl

/-- Helper: when `startCore` reports success the process is running. -/
theorem startCore_ok_procRunning (env : StartEnv) (node : EWPNode) (t : Bool)
    (s : CoreState) (h : (startCore env node t s).1 = true) :
    (startCore env node t s).2.1.procRunning = true := by
  revert h
  unfold startCore generateConfigFile onProcessStarted
  cases hp : s.procRunning <;> cases he : env.exeExists <;> cases hv : node.isValid <;>
    cases hc : env.configGenOk <;> cases hs : env.spawnOk <;> intro h <;>
      first
        | rfl
        | exact Bool.noConfusion h

/-! Claim C1. -/

/-- C1 (counterexample): reaching `Running` through an automatic
reconnection attempt does NOT reset the retry counter.  Concrete trace:
external start, crash (scheduling reconnect attempt 1), retry timer fires
and the reconnection attempt succeeds — the process is running again but
`retryCount` is still 1, not 0: `onProcessStarted` only emits `started`
and `startCore` never touches the counter. -/
theorem C1_counterexample :
    (fireTimer goodEnv reconS).1.procRunning = true ∧
    (fireTimer goodEnv reconS).2 =
      [Notif.logReceived (tryReconnectLogMsg 1), Notif.started] ∧
    (fireTimer goodEnv reconS).1.retryCount = 1 ∧
    ¬(fireTimer goodEnv reconS).1.retryCount = 0 := by decide

/-- C1 (amended): the retry counter is reset to zero by every external
`start` request (before any spawn), but a successful transition to
`Running` via the reconnect timer leaves the counter at the value of the
attempt that succeeded. -/
theorem C1_retry_counter_reset (env : StartEnv) (s : CoreState)
    (hT : s.timerActive = true)
    (hOk : (startCore env s.lastNode s.lastTunMode { s with timerActive := false }).1 = true) :
    (fireTimer env s).1.procRunning = true ∧
    (fireTimer env s).1.retryCount = s.retryCount ∧
    ∀ (node : EWPNode) (t : Bool) (s2 : CoreState),
      (start env node t s2).2.1.retryCount = 0 := by
  refine ⟨?_, ?_, ?_⟩
  · simp only [fireTimer, hT, if_true, attemptReconnect, hOk, if_true]
    simpa using startCore_ok_procRunning env s.lastNode s.lastTunMode
      { s with timerActive := false } hOk
  · simp only [fireTimer, hT, if_true, attemptReconnect, hOk, if_true]
    simpa using startCore_retryCount env s.lastNode s.lastTunMode
      { s with timerActive := false }
  · intro node t s2
    simpa using startCore_retryCount env node t
      { s2 with retryCount := 0, timerActive := false }

/-- C1 (witness): the amended theorem applied to the concrete
post-crash state with the all-good environment. -/
theorem C1_witness :
    (fireTimer goodEnv reconS).1.retryCount = reconS.retryCount :=
  (C1_retry_counter_reset goodEnv reconS (by decide) (by decide)).2.1

/-! Claim C2. -/

/-- C2 (counterexample): a process exit with non-zero exit code 1 but
`NormalExit` status, while running with no stop requested, is NOT
classified as a crash: only `stopped` is emitted and no reconnect timer is
started, although the claim calls a non-zero exit code an abnormal
termination that must trigger reconnection. -/
theorem C2_counterexample :
    runS.gracefulStop = false ∧ runS.procRunning = true ∧
    (onProcessFinished 1 ExitStatus.normalExit runS).2 = [Notif.stopped] ∧
    (onProcessFinished 1 ExitStatus.normalExit runS).1.timerActive = false := by decide

/-- C2 (amended): an exit is classified as a crash — with reconnection
scheduling — iff the OS-reported exit status is `CrashExit` and the
termination was not caller-requested; the numeric exit code is ignored.
On the first such crash the reconnect-scheduled notification fires with
attempt = 1, and a caller-requested stop never triggers reconnection even
when the status is `CrashExit`. -/
theorem C2_crash_classification (code : Int) (st : ExitStatus) (s : CoreState) :
    ((onProcessFinished code st s).2 ≠ [Notif.stopped] ↔
      st = ExitStatus.crashExit ∧ s.gracefulStop = false) ∧
    (st = ExitStatus.crashExit → s.gracefulStop = false → s.retryCount = 0 →
      (onProcessFinished code st s).2 =
        [Notif.stopped, Notif.reconnecting 1 kMaxRetries,
         Notif.logReceived (reconnectLogMsg 2 1)] ∧
      (onProcessFinished code st s).1.timerActive = true ∧
      (onProcessFinished code st s).1.retryCount = 1) ∧
    (s.gracefulStop = true →
      (onProcessFinished code st s).2 = [Notif.stopped] ∧
      (onProcessFinished code st s).1.timerActive = s.timerActive ∧
      (onProcessFinished code st s).1.retryCount = s.retryCount) := by
  refine ⟨?_, ?_, ?_⟩
  · cases st <;> cases hg : s.gracefulStop <;>
      simp [onProcessFinished, scheduleReconnect, hg] <;>
        split <;> simp
  · intro h1 h2 h3
    simp [onProcessFinished, scheduleReconnect, h1, h2, h3, kMaxRetries,
      reconnectLogMsg]
  · intro hg
    cases st <;> simp [onProcessFinished, hg]

/-- C2 (witness): the amended classification applied at a concrete
first crash of the running state. -/
theorem C2_witness :
    (onProcessFinished 9 ExitStatus.crashExit runS).1.timerActive = true :=
  ((C2_crash_classification 9 ExitStatus.crashExit runS).2.1 rfl (by decide)
    (by decide)).2.1

/-! Claim C3. -/

/-- C3 (confirmed): `kMaxRetries = 3`; for an attempt scheduled while the
counter is below the cap, attempt `n = retryCount + 1` is announced and
the single-shot timer is started with `2 * 2 ^ (n - 1)` seconds (so 2 s,
4 s, 8 s for attempts 1, 2, 3); once the budget is exhausted, exactly one
`reconnectFailed` notification is emitted, the counter is reset, and no
timer is started (the supervisor stays idle: process and timer flags
unchanged, hence off). -/
theorem C3_backoff (s : CoreState) :
    kMaxRetries = 3 ∧
    (s.retryCount < kMaxRetries →
      (scheduleReconnect s).1.timerDelayMs = 2 * 2 ^ s.retryCount * 1000 ∧
      (scheduleReconnect s).1.retryCount = s.retryCount + 1 ∧
      (scheduleReconnect s).1.timerActive = true ∧
      (scheduleReconnect s).2 =
        [Notif.reconnecting (s.retryCount + 1) kMaxRetries,
         Notif.logReceived (reconnectLogMsg (2 * 2 ^ s.retryCount) (s.retryCount + 1))]) ∧
    (kMaxRetries ≤ s.retryCount →
      (scheduleReconnect s).2 = [Notif.reconnectFailed] ∧
      (scheduleReconnect s).1.retryCount = 0 ∧
      (scheduleReconnect s).1.timerActive = s.timerActive ∧
      (scheduleReconnect s).1.procRunning = s.procRunning) := by
  refine ⟨rfl, ?_, ?_⟩
  · intro h
    have hlt : ¬ s.retryCount ≥ kMaxRetries := by omega
    simp [scheduleReconnect, hlt, Nat.shiftLeft_eq]
  · intro h
    simp [scheduleReconnect, h]

/-- C3 (witness): the backoff theorem applied at the state pending
attempt 2 (counter 1): delay 4 s, then at a counter value at the cap. -/
theorem C3_witness :
    (scheduleReconnect reconS).1.timerDelayMs = 2 * 2 ^ reconS.retryCount * 1000 ∧
    (scheduleReconnect { reconS with retryCount := 3 }).2 = [Notif.reconnectFailed] :=
  ⟨((C3_backoff reconS).2.1 (by decide)).1,
   ((C3_backoff { reconS with retryCount := 3 }).2.2 (by decide)).1⟩

/-- Helper: `removeConfigFile` never changes the timer flag. -/
theorem removeConfigFile_timerActive (s : CoreState) :
    (removeConfigFile s).timerActive = s.timerActive := by
  unfold removeConfigFile
  split <;> rfl

/-- Helper: `removeConfigFile` preserves the retry counter. -/
theorem removeConfigFile_retryCount (s : CoreState) :
    (removeConfigFile s).retryCount = s.retryCount := by
  unfold removeConfigFile
  split <;> rfl

/-- Helper: `removeConfigFile` preserves the control address. -/
theorem removeConfigFile_controlAddr (s : CoreState) :
    (removeConfigFile s).controlAddr = s.controlAddr := by
  unfold removeConfigFile
  split <;> rfl

/-- Helper: `removeConfigFile` preserves the running flag. -/
theorem removeConfigFile_procRunning (s : CoreState) :
    (removeConfigFile s).procRunning = s.procRunning := by
  unfold removeConfigFile
  split <;> rfl

/-- With a non-empty recorded path, `removeConfigFile` deletes the file. -/
theorem removeConfigFile_deletes (s : CoreState)
    (h : s.configFilePath.isEmpty = false) :
    (removeConfigFile s).configOnDisk = false := by
  unfold removeConfigFile
  cases hd : s.configOnDisk <;> simp [h, hd]

/-- Helper: with `gracefulStop` set, the cleanup block does not classify
the exit as a crash, so the timer flag is untouched. -/
theorem finishAndCleanup_timerActive (env : StopEnv) (sB : CoreState)
    (hg : sB.gracefulStop = true) :
    (finishAndCleanup env sB).1.timerActive = sB.timerActive := by
  unfold finishAndCleanup onProcessFinished
  rw [hg]
  cases hst : env.exitStatus <;>
    exact (removeConfigFile_timerActive _).trans rfl

/-- Helper: with `gracefulStop` set, the cleanup block keeps the retry
counter. -/
theorem finishAndCleanup_retryCount (env : StopEnv) (sB : CoreState)
    (hg : sB.gracefulStop = true) :
    (finishAndCleanup env sB).1.retryCount = sB.retryCount := by
  unfold finishAndCleanup onProcessFinished
  rw [hg]
  cases hst : env.exitStatus <;>
    exact (removeConfigFile_retryCount _).trans rfl

/-- Helper: the cleanup block clears the control address (done by the
`finished` handler that ran inside the wait). -/
theorem finishAndCleanup_controlAddr (env : StopEnv) (sB : CoreState)
    (hg : sB.gracefulStop = true) :
    (finishAndCleanup env sB).1.controlAddr = "" := by
  unfold finishAndCleanup onProcessFinished
  rw [hg]
  cases hst : env.exitStatus <;>
    exact (removeConfigFile_controlAddr _).trans rfl

/-- Helper: with a non-empty recorded config path, the cleanup block
deletes the config file. -/
theorem finishAndCleanup_configOnDisk (env : StopEnv) (sB : CoreState)
    (hg : sB.gracefulStop = true) (hne : sB.configFilePath.isEmpty = false) :
    (finishAndCleanup env sB).1.configOnDisk = false := by
  unfold finishAndCleanup onProcessFinished
  rw [hg]
  cases hst : env.exitStatus <;>
    exact removeConfigFile_deletes _ hne

/-- Helper: after any `stop` call the retry timer is inactive, on every
path. -/
theorem stop_timerActive_false (env : StopEnv) (s : CoreState) :
    (stop env s).1.timerActive = false := by
  unfold stop
  cases hp : s.procRunning <;> cases ht : s.timerActive
  · exact ht
  · rfl
  all_goals
    exact ite_cond_neg (fun p : CoreState × List Notif => p.1.timerActive = false)
      (fun h => Bool.noConfusion h.1)
      (ite_cond_neg (fun p : CoreState × List Notif => p.1.timerActive = false)
        (fun h => Bool.noConfusion h)
        (ite_pred (fun p : CoreState × List Notif => p.1.timerActive = false)
          ((finishAndCleanup_timerActive env _ rfl).trans rfl)
          (ite_pred (fun p : CoreState × List Notif => p.1.timerActive = false)
            ((finishAndCleanup_timerActive env _ rfl).trans rfl)
            (ite_pred (fun p : CoreState × List Notif => p.1.timerActive = false)
              ((finishAndCleanup_timerActive env _ rfl).trans rfl)
              ((removeConfigFile_timerActive _).trans rfl)))))

/-! Claim C4. -/

/-- C4 (counterexample): a Stop issued while the reconnection timer is
pending (after the concrete crash trace) returns with the retry state
reset and the timer cancelled, but the generated config artifact is STILL
on disk, contradicting the claim that after every Stop outcome path the
config artifact no longer exists. -/
theorem C4_counterexample :
    reconS.procRunning = false ∧ reconS.timerActive = true ∧
    (stop stopEnvOk reconS).1.retryCount = 0 ∧
    (stop stopEnvOk reconS).1.timerActive = false ∧
    (stop stopEnvOk reconS).1.configOnDisk = true := by decide

/-- C4 (amended): after a caller-requested Stop, the retry state is reset
and the pending timer cancelled on every non-no-op path; when a process
was actually running, the config artifact is deleted on every outcome
path, and the ControlAddress is cleared whenever one of the bounded waits
observed the exit; but a Stop issued while only a reconnection timer is
pending returns early without touching the config artifact left by the
crashed run (whose crash handler already cleared the ControlAddress). -/
theorem C4_stop_cleanup (env : StopEnv) (s : CoreState)
    (hPath : s.configFilePath = kConfigPath) :
    ((stop env s).1.retryCount = 0 ∨ (s.procRunning = false ∧ s.timerActive = false)) ∧
    (stop env s).1.timerActive = false ∧
    (s.procRunning = true → (stop env s).1.configOnDisk = false) ∧
    (s.procRunning = true →
      ((!s.controlAddr.isEmpty && env.quitWaitOk) || env.termWaitOk || env.killWaitOk) = true →
      (stop env s).1.controlAddr = "") ∧
    (s.procRunning = false → s.timerActive = true →
      stop env s = ({ s with retryCount := 0, timerActive := false }, [])) := by
  have hne : s.configFilePath.isEmpty = false := by
    rw [hPath]; exact kConfigPath_isEmpty
  refine ⟨?_, stop_timerActive_false env s, ?_, ?_, ?_⟩
  · unfold stop
    cases hp : s.procRunning <;> cases ht : s.timerActive
    · exact Or.inr ⟨rfl, rfl⟩
    · exact Or.inl rfl
    all_goals
      exact Or.inl (ite_cond_neg (fun p : CoreState × List Notif => p.1.retryCount = 0)
        (fun h => Bool.noConfusion h.1)
        (ite_cond_neg (fun p : CoreState × List Notif => p.1.retryCount = 0)
          (fun h => Bool.noConfusion h)
          (ite_pred (fun p : CoreState × List Notif => p.1.retryCount = 0)
            ((finishAndCleanup_retryCount env _ rfl).trans rfl)
            (ite_pred (fun p : CoreState × List Notif => p.1.retryCount = 0)
              ((finishAndCleanup_retryCount env _ rfl).trans rfl)
              (ite_pred (fun p : CoreState × List Notif => p.1.retryCount = 0)
                ((finishAndCleanup_retryCount env _ rfl).trans rfl)
                ((removeConfigFile_retryCount _).trans rfl))))))
  · intro hp
    unfold stop
    rw [hp]
    exact ite_cond_neg (fun p : CoreState × List Notif => p.1.configOnDisk = false)
      (fun h => Bool.noConfusion h.1)
      (ite_cond_neg (fun p : CoreState × List Notif => p.1.configOnDisk = false)
        (fun h => Bool.noConfusion h)
        (ite_pred (fun p : CoreState × List Notif => p.1.configOnDisk = false)
          (finishAndCleanup_configOnDisk env _ rfl hne)
          (ite_pred (fun p : CoreState × List Notif => p.1.configOnDisk = false)
            (finishAndCleanup_configOnDisk env _ rfl hne)
            (ite_pred (fun p : CoreState × List Notif => p.1.configOnDisk = false)
              (finishAndCleanup_configOnDisk env _ rfl hne)
              (removeConfigFile_deletes _ hne)))))
  · intro hp hobs
    unfold stop
    dsimp only
    rw [hp]
    cases hca : s.controlAddr.isEmpty <;> cases hq : env.quitWaitOk <;>
      cases htm : env.termWaitOk <;> cases hk : env.killWaitOk <;>
        first
          | exact finishAndCleanup_controlAddr env _ rfl
          | (rw [hca, hq, htm, hk] at hobs; exact Bool.noConfusion hobs)
  · intro hp ht
    unfold stop
    rw [hp, ht]
    rfl

/-- C4 (witness): the amended theorem applied to the running state with
the environment where every wait succeeds. -/
theorem C4_witness :
    (stop stopEnvOk runS).1.configOnDisk = false :=
  (C4_stop_cleanup stopEnvOk runS (by decide)).2.2.1 (by decide)

/-! Claim C5. -/

/-- C5 (counterexample): on the startup-confirmation-timeout error path
(`waitForStarted` fails) the start attempt reports the timeout error and
discards the process object, but the just-materialized config artifact
remains on disk, contradicting the claim that the artifact is deleted on
all error paths. -/
theorem C5_counterexample :
    (start noSpawnEnv node0 false initState).1 = false ∧
    (start noSpawnEnv node0 false initState).2.2 =
      [Notif.errorOccurred msgStartTimeout] ∧
    (start noSpawnEnv node0 false initState).2.1.hasProcess = false ∧
    (start noSpawnEnv node0 false initState).2.1.configOnDisk = true := by decide

/-- C5 (amended): the config artifact is deleted only by the Stop paths
that found a live process; the crash/exit handler never touches the file
(a run ending in a crash leaves it on disk), and the
startup-confirmation-timeout error path leaves the freshly written file
on disk as well. -/
theorem C5_config_artifact (code : Int) (st : ExitStatus) (s s2 : CoreState)
    (env : StartEnv) (node : EWPNode) (t : Bool)
    (he : env.exeExists = true) (hv : node.isValid = true)
    (hc : env.configGenOk = true) (hs : env.spawnOk = false)
    (hr : s2.procRunning = false) :
    (onProcessFinished code st s).1.configOnDisk = s.configOnDisk ∧
    (onProcessFinished code st s).1.configFilePath = s.configFilePath ∧
    (startCore env node t s2).1 = false ∧
    (startCore env node t s2).2.1.configOnDisk = true := by
  refine ⟨?_, ?_, ?_, ?_⟩
  · unfold onProcessFinished scheduleReconnect
    cases st <;> cases hg : s.gracefulStop
    · rfl
    · rfl
    · exact ite_pred (fun r : CoreState × List Notif => r.1.configOnDisk = s.configOnDisk)
        (ite_pred (fun r : CoreState × List Notif => r.1.configOnDisk = s.configOnDisk) rfl rfl)
        rfl
    · rfl
  · unfold onProcessFinished scheduleReconnect
    cases st <;> cases hg : s.gracefulStop
    · rfl
    · rfl
    · exact ite_pred (fun r : CoreState × List Notif => r.1.configFilePath = s.configFilePath)
        (ite_pred (fun r : CoreState × List Notif => r.1.configFilePath = s.configFilePath) rfl rfl)
        rfl
    · rfl
  · unfold startCore generateConfigFile
    rw [hr, he, hv, hc, hs]
    rfl
  · unfold startCore generateConfigFile
    rw [hr, he, hv, hc, hs]
    rfl

/-- C5 (witness): the amended theorem applied to the crash of the
concrete running state and the concrete no-spawn environment. -/
theorem C5_witness :
    (onProcessFinished 9 ExitStatus.crashExit runS).1.configOnDisk = runS.configOnDisk ∧
    (startCore noSpawnEnv node0 false initState).2.1.configOnDisk = true := by
  have h := C5_config_artifact 9 ExitStatus.crashExit runS initState noSpawnEnv
    node0 false (by decide) (by decide) (by decide) (by decide) (by decide)
  exact ⟨h.1, h.2.2.2⟩

/-! Claim C6. -/

/-- C6 (counterexample): while a reconnection backoff timer is pending
(state Reconnecting, no process running), an external Start request is
ACCEPTED — it spawns a process, emits `started`, and never reports the
already-running error — contradicting the claim that Start fails with
AlreadyRunning in every non-Idle state. -/
theorem C6_counterexample :
    reconS.procRunning = false ∧ reconS.timerActive = true ∧
    (start goodEnv node0 false reconS).1 = true ∧
    (start goodEnv node0 false reconS).2.2 = [Notif.started] ∧
    ¬(start goodEnv node0 false reconS).2.1.lastError = msgAlreadyRunning := by decide

/-- C6 (amended): Start is rejected — synchronously, before any spawn,
recording the already-running error in `lastError` and emitting no
notification — iff the supervised process is currently running; when no
process is running (in particular in Reconnecting with a pending backoff
timer) Start cancels the timer, resets the retry counter, and proceeds as
a fresh start. -/
theorem C6_start_gate (env : StartEnv) (node : EWPNode) (t : Bool) (s : CoreState) :
    (s.procRunning = true →
      (start env node t s).1 = false ∧
      (start env node t s).2.2 = [] ∧
      (start env node t s).2.1.lastError = msgAlreadyRunning ∧
      (start env node t s).2.1.hasProcess = s.hasProcess ∧
      (start env node t s).2.1.procRunning = true) ∧
    (s.procRunning = false → env.exeExists = true → node.isValid = true →
     env.configGenOk = true → env.spawnOk = true →
      (start env node t s).1 = true ∧
      (start env node t s).2.1.timerActive = false ∧
      (start env node t s).2.1.retryCount = 0 ∧
      (start env node t s).2.1.procRunning = true) := by
  constructor
  · intro hp
    unfold start startCore
    dsimp only
    rw [hp]
    exact ⟨rfl, rfl, rfl, rfl, rfl⟩
  · intro hp he hv hc hs
    unfold start startCore generateConfigFile onProcessStarted
    dsimp only
    rw [hp, he, hv, hc, hs]
    exact ⟨rfl, rfl, rfl, rfl⟩

/-- C6 (witness): the amended gate applied to the running state (reject)
and to the pending-reconnect state (accept). -/
theorem C6_witness :
    (start goodEnv node0 false runS).2.2 = [] ∧
    (start goodEnv node0 false reconS).1 = true :=
  ⟨((C6_start_gate goodEnv node0 false runS).1 (by decide)).2.1,
   ((C6_start_gate goodEnv node0 false reconS).2 (by decide) (by decide)
      (by decide) (by decide) (by decide)).1⟩

/-! Claim C7. -/

/-- C7 (confirmed): after any Stop call the retry timer is inactive, and a
subsequently elapsing timer delivery is a no-op — the state is unchanged,
no notification is emitted, and in particular no process is spawned. -/
theorem C7_stop_cancels_timer (env : StopEnv) (envF : StartEnv) (s : CoreState) :
    (stop env s).1.timerActive = false ∧
    fireTimer envF (stop env s).1 = ((stop env s).1, []) := by
  refine ⟨stop_timerActive_false env s, ?_⟩
  unfold fireTimer
  rw [stop_timerActive_false env s]
  rfl

/-! Claim C8. -/

/-- C8 (confirmed): for every trimmed primary-output line that begins with
the literal marker `CONTROL_ADDR=`, the control address is set to exactly
the substring after the marker (the line with the marker's 13 characters
removed), and the full line is also emitted as a log line equal to the
line itself. -/
theorem C8_control_addr (s : CoreState) (line : String)
    (ht : qtrim line = line)
    (h : qStartsWith line "CONTROL_ADDR=" = true) :
    (handleOutLine s line).1.controlAddr = qmid line ("CONTROL_ADDR=".length) ∧
    (handleOutLine s line).2 = [Notif.logReceived line] := by
  have hl : ("CONTROL_ADDR=".length) = 13 := by decide
  rw [hl]
  simp [handleOutLine, ht, h]

/-- C8 (witness): the concrete line of the claim sets the address to
`127.0.0.1:9090` and is forwarded verbatim as a log line. -/
theorem C8_witness :
    (handleOutLine runS "CONTROL_ADDR=127.0.0.1:9090").1.controlAddr = "127.0.0.1:9090" ∧
    (handleOutLine runS "CONTROL_ADDR=127.0.0.1:9090").2 =
      [Notif.logReceived "CONTROL_ADDR=127.0.0.1:9090"] := by
  have h := C8_control_addr runS "CONTROL_ADDR=127.0.0.1:9090" (by decide) (by decide)
  refine ⟨?_, h.2⟩
  rw [h.1]
  decide

/-! Claim C9. -/

/-- C9 (confirmed): for every profile with an empty server address, or
with an empty credential for its protocol (empty uuid for EWP, empty
password for Trojan), a Start issued while no process is running and the
executable exists fails with the invalid-profile error notification and
no process is spawned. -/
theorem C9_invalid_profile (env : StartEnv) (node : EWPNode) (t : Bool) (s : CoreState)
    (hIdle : s.procRunning = false) (hExe : env.exeExists = true)
    (hBad : node.serverAddress = "" ∨
            (node.appProtocol = AppProtocol.ewp ∧ node.uuid = "") ∨
            (node.appProtocol = AppProtocol.trojan ∧ node.trojanPassword = "")) :
    (start env node t s).1 = false ∧
    (start env node t s).2.2 = [Notif.errorOccurred msgInvalidNode] ∧
    (start env node t s).2.1.lastError = msgInvalidNode ∧
    (start env node t s).2.1.procRunning = false ∧
    (start env node t s).2.1.hasProcess = s.hasProcess := by
  have hv : node.isValid = false := by
    unfold EWPNode.isValid
    rcases hBad with h1 | ⟨h2, h3⟩ | ⟨h2, h3⟩
    · simp [h1, emptyStr_isEmpty]
    · simp [h2, h3, emptyStr_isEmpty]
    · simp [h2, h3, emptyStr_isEmpty]
  unfold start startCore
  dsimp only
  rw [hIdle, hExe, hv]
  exact ⟨rfl, rfl, rfl, rfl, rfl⟩

/-- C9 (witness): a profile with EWP protocol and empty uuid is rejected
with the invalid-profile notification. -/
theorem C9_witness :
    (start goodEnv { serverAddress := "x", uuid := "" } false initState).2.2 =
      [Notif.errorOccurred msgInvalidNode] :=
  (C9_invalid_profile goodEnv { serverAddress := "x", uuid := "" } false initState
    (by decide) (by decide) (Or.inr (Or.inl ⟨rfl, rfl⟩))).2.1

/-! Claim C10. -/

/-- C10 (counterexample): the AlreadyRunning error is NOT surfaced as a
notification — a start attempted while the process is running returns
false and records the message in `lastError`, but emits nothing,
contradicting the claim that every error in the taxonomy is surfaced to
the caller as a notification. -/
theorem C10_counterexample :
    runS.procRunning = true ∧
    (startCore goodEnv node0 false runS).1 = false ∧
    (startCore goodEnv node0 false runS).2.2 = [] ∧
    (startCore goodEnv node0 false runS).2.1.lastError = msgAlreadyRunning := by decide

/-- C10 (amended): every error in the taxonomy except AlreadyRunning is
surfaced as an `errorOccurred` notification (ExecutableNotFound,
InvalidProfile, ConfigMaterializationFailed, StartupTimeout on the start
path; ProcessCrashed and the generic process errors via the error slot);
AlreadyRunning is surfaced only synchronously through the false return
value and `lastError`; and a `Crashed` process error arriving during a
caller-requested stop is deliberately suppressed. -/
theorem C10_error_surfacing (env : StartEnv) (node : EWPNode) (t : Bool)
    (s : CoreState) (e : ProcessError) :
    (s.procRunning = true →
      (startCore env node t s).1 = false ∧
      (startCore env node t s).2.2 = [] ∧
      (startCore env node t s).2.1.lastError = msgAlreadyRunning) ∧
    (s.procRunning = false → env.exeExists = false →
      (startCore env node t s).2.2 = [Notif.errorOccurred msgExeNotFound]) ∧
    (s.procRunning = false → env.exeExists = true → node.isValid = false →
      (startCore env node t s).2.2 = [Notif.errorOccurred msgInvalidNode]) ∧
    (s.procRunning = false → env.exeExists = true → node.isValid = true →
      env.configGenOk = false →
      (startCore env node t s).2.2 = [Notif.errorOccurred msgConfigFail]) ∧
    (s.procRunning = false → env.exeExists = true → node.isValid = true →
      env.configGenOk = true → env.spawnOk = false →
      (startCore env node t s).2.2 = [Notif.errorOccurred msgStartTimeout]) ∧
    (¬(s.gracefulStop = true ∧ e = ProcessError.crashed) →
      (onProcessError e s).2 = [Notif.errorOccurred (procErrorMsg e)]) ∧
    (s.gracefulStop = true →
      (onProcessError ProcessError.crashed s).2 = []) := by
  refine ⟨?_, ?_, ?_, ?_, ?_, ?_, ?_⟩
  · intro hp
    unfold startCore
    rw [hp]
    exact ⟨rfl, rfl, rfl⟩
  · intro hp he
    unfold startCore
    rw [hp, he]
    rfl
  · intro hp he hv
    unfold startCore
    rw [hp, he, hv]
    rfl
  · intro hp he hv hc
    unfold startCore generateConfigFile
    rw [hp, he, hv, hc]
    rfl
  · intro hp he hv hc hs
    unfold startCore generateConfigFile
    rw [hp, he, hv, hc, hs]
    rfl
  · intro h6
    unfold onProcessError
    split
    · next hcond => exact absurd hcond h6
    · rfl
  · intro hg
    unfold onProcessError
    rw [hg]
    rfl

/-- C10 (witness): the amended theorem applied concretely — a crashed
process error with no stop requested is surfaced with the crash
message. -/
theorem C10_witness :
    (onProcessError ProcessError.crashed runS).2 =
      [Notif.errorOccurred (procErrorMsg ProcessError.crashed)] :=
  (C10_error_surfacing goodEnv node0 false runS ProcessError.crashed).2.2.2.2.2.1
    (by decide)

end CoreSup
